import Mathlib

/-!
Shallow embedding of `config/src/utils.rs` from the repository.

The Rust code performs OS effects (a cryptographic RNG, TCP bind/connect/accept,
network-interface enumeration).  These are modelled by an explicit environment
`OsEnv` supplying, per allocation attempt, the raw random draw and the outcome
of each OS call.  The functions of the source file become pure Lean functions of
that environment; a Rust `panic!` / `.unwrap()` failure is modelled as `none`.
-/

namespace ConfigUtils

/-- Source constant `MAX_PORT_RETRIES: u16 = 1000`. -/
def MAX_PORT_RETRIES : Nat := 1000

/-- Start of `const RANDOM_PORT_RANGE: Range<u16> = 10000..30000`. -/
def RANDOM_PORT_RANGE_START : Nat := 10000

/-- End (exclusive) of `RANDOM_PORT_RANGE`. -/
def RANDOM_PORT_RANGE_END : Nat := 30000

/-- Model of the OS-provided effects consumed by one run of the port
allocator.  Indexed by the attempt number `i` of the retry loop. -/
structure OsEnv where
  /-- Raw value drawn from `OsRng` at attempt `i` (before range reduction). -/
  randVals : Nat → Nat
  /-- Whether `TcpListener::bind(("localhost", port))` succeeds at attempt `i`. -/
  bindOk : Nat → Nat → Bool
  /-- Whether `listener.local_addr()` succeeds at attempt `i`. -/
  localAddrOk : Nat → Bool
  /-- Whether `TcpStream::connect(addr)` succeeds at attempt `i`. -/
  connectOk : Nat → Bool
  /-- Whether `listener.accept()` succeeds at attempt `i`. -/
  acceptOk : Nat → Bool
  /-- The ephemeral port the OS would substitute had the bind requested port 0. -/
  ephemeralPort : Nat → Nat

/-- Model of `OsRng.gen_range(lo, hi)`: a uniformly drawn value in `[lo, hi)`; the raw
draw `v` is reduced into the half-open range. -/
def genRange (lo hi v : Nat) : Nat := lo + v % (hi - lo)

/-- The random candidate port drawn at attempt `i`:
`OsRng.gen_range(RANDOM_PORT_RANGE.start, RANDOM_PORT_RANGE.end)`. -/
def candidatePort (env : OsEnv) (i : Nat) : Nat :=
  genRange RANDOM_PORT_RANGE_START RANDOM_PORT_RANGE_END (env.randVals i)

/-- The port reported by `listener.local_addr()` when the bind at attempt `i`
requested `requested`: TCP bind semantics hand back the requested port when it
is nonzero, and an OS-chosen ephemeral port when the request was port 0. -/
def boundPort (env : OsEnv) (i requested : Nat) : Nat :=
  if requested = 0 then env.ephemeralPort i else requested

/-- Source function `get_random_port() -> io::Result<u16>`: draw a random candidate port, bind
a TCP listener to it, read back the bound local address, force the port into
TIME_WAIT via a loopback connect/accept pair, and return `addr.port()`.
Any failing OS call makes the whole attempt return `Err` (Rust `?`). -/
def get_random_port (env : OsEnv) (i : Nat) : Except Unit Nat :=
  if env.bindOk i (candidatePort env i) then
    if env.localAddrOk i then
      if env.connectOk i then
        if env.acceptOk i then
          Except.ok (boundPort env i (candidatePort env i))
        else Except.error ()
      else Except.error ()
    else Except.error ()
  else Except.error ()

/-- The retry loop of `get_available_port`, starting at attempt `i` with
`fuel` attempts remaining.  `none` models the `panic!` on exhaustion. -/
def get_available_port_aux (env : OsEnv) : Nat → Nat → Option Nat
  | _, 0 => none
  | i, fuel + 1 =>
    match get_random_port env i with
    | Except.ok p => some p
    | Except.error _ => get_available_port_aux env (i + 1) fuel

/-- Source function `get_available_port() -> u16`: up to `MAX_PORT_RETRIES` attempts of
`get_random_port`; returns the first successful port, and panics
(`none`) if every attempt fails. -/
def get_available_port (env : OsEnv) : Option Nat :=
  get_available_port_aux env 0 MAX_PORT_RETRIES

/-- Number of loop iterations `get_available_port` actually executes,
starting at attempt `i` with `fuel` attempts remaining. -/
def attemptsUsed_aux (env : OsEnv) : Nat → Nat → Nat
  | _, 0 => 0
  | i, fuel + 1 =>
    match get_random_port env i with
    | Except.ok _ => 1
    | Except.error _ => 1 + attemptsUsed_aux env (i + 1) fuel

/-- Number of allocation attempts one call of `get_available_port` makes. -/
def attemptsUsed (env : OsEnv) : Nat :=
  attemptsUsed_aux env 0 MAX_PORT_RETRIES

/-- Modelled from the spec: the OS ephemeral port range this design avoids
(the Linux default dynamic range 32768..60999); the source file only names it
in a comment, the numeric bounds are the common OS default. -/
def inOsEphemeralRange (p : Nat) : Bool :=
  32768 ≤ p && p ≤ 60999

/-- Model of `std::net::Ipv4Addr`: four octets. -/
structure Ipv4Addr where
  o1 : Nat
  o2 : Nat
  o3 : Nat
  o4 : Nat
  deriving DecidableEq, Repr

/-- Model of `std::net::Ipv6Addr`: eight 16-bit segments. -/
structure Ipv6Addr where
  segments : List Nat
  deriving DecidableEq, Repr

/-- Model of `std::net::IpAddr`. -/
inductive IpAddr where
  | v4 : Ipv4Addr → IpAddr
  | v6 : Ipv6Addr → IpAddr
  deriving DecidableEq, Repr

/-- Split a character list on a single separator character. -/
def splitOnSep (sep : Char) : List Char → List (List Char)
  | [] => [[]]
  | c :: rest =>
    let r := splitOnSep sep rest
    if c = sep then [] :: r
    else
      match r with
      | [] => [[c]]
      | g :: gs => (c :: g) :: gs

/-- One decimal octet of a dotted-quad IPv4 literal: 1-3 digits, value < 256. -/
def parseDecGroup (cs : List Char) : Option Nat :=
  if cs.length = 0 ∨ 3 < cs.length then none
  else if cs.all Char.isDigit then
    let v := cs.foldl (fun a c => a * 10 + (c.toNat - 48)) 0
    if v < 256 then some v else none
  else none

/-- Model of `str::parse::<Ipv4Addr>` (the address-parsing collaborator from
the standard library, outside this repository): a dotted quad of exactly four
decimal octets. -/
def parseIpv4 (s : String) : Option Ipv4Addr :=
  match (splitOnSep '.' s.data).mapM parseDecGroup with
  | some [a, b, c, d] => some ⟨a, b, c, d⟩
  | _ => none

/-- Hexadecimal digit test. -/
def isHexDigitChar (c : Char) : Bool :=
  c.isDigit || ('a' ≤ c && c ≤ 'f') || ('A' ≤ c && c ≤ 'F')

/-- Numeric value of a hexadecimal digit. -/
def hexVal (c : Char) : Nat :=
  if c.isDigit then c.toNat - 48
  else if 'a' ≤ c && c ≤ 'f' then c.toNat - 87
  else c.toNat - 55

/-- One hexadecimal group of an IPv6 literal: 1-4 hex digits. -/
def parseHexGroup (cs : List Char) : Option Nat :=
  if cs.length = 0 ∨ 4 < cs.length then none
  else if cs.all isHexDigitChar then
    some (cs.foldl (fun a c => a * 16 + hexVal c) 0)
  else none

/-- Break a character list at the first occurrence of a double colon,
returning the parts before and after it. -/
def breakOnDoubleColon : List Char → Option (List Char × List Char)
  | [] => none
  | [_] => none
  | a :: b :: rest =>
    if a = ':' ∧ b = ':' then some ([], rest)
    else (breakOnDoubleColon (b :: rest)).map fun pr => (a :: pr.1, pr.2)

/-- The colon-separated hex groups of one side of an IPv6 literal; the empty
side of a `::` contributes no groups. -/
def parseGroups (cs : List Char) : Option (List Nat) :=
  match cs with
  | [] => some []
  | _ => (splitOnSep ':' cs).mapM parseHexGroup

/-- Model of `str::parse::<Ipv6Addr>` (the address-parsing collaborator from
the standard library, outside this repository): eight colon-separated hex
groups, with at most one `::` standing for a run of zero groups. -/
def parseIpv6 (s : String) : Option Ipv6Addr :=
  match breakOnDoubleColon s.data with
  | some (l, r) =>
    if (breakOnDoubleColon r).isSome then none
    else
      match parseGroups l, parseGroups r with
      | some ls, some rs =>
        if ls.length + rs.length ≤ 7 then
          some ⟨ls ++ List.replicate (8 - (ls.length + rs.length)) 0 ++ rs⟩
        else none
      | _, _ => none
  | none =>
    match parseGroups s.data with
    | some gs => if gs.length = 8 then some ⟨gs⟩ else none
    | none => none

/-- Model of `aptos_types::network_address::Protocol` restricted to the
variants this file constructs. -/
inductive Protocol where
  | Ip4 : Ipv4Addr → Protocol
  | Ip6 : Ipv6Addr → Protocol
  | Tcp : Nat → Protocol
  deriving DecidableEq, Repr

/-- Whether a protocol component is an IP-version selector. -/
def Protocol.isIp : Protocol → Bool
  | Protocol.Ip4 _ => true
  | Protocol.Ip6 _ => true
  | Protocol.Tcp _ => false

/-- Whether a protocol component is a transport selector carrying a port. -/
def Protocol.isTransport : Protocol → Bool
  | Protocol.Tcp _ => true
  | _ => false

/-- Conversion `Protocol::from(IpAddr)` of the address-encoding collaborator: wraps a V4
address as `Ip4` and a V6 address as `Ip6`. -/
def Protocol.fromIp : IpAddr → Protocol
  | IpAddr.v4 a => Protocol.Ip4 a
  | IpAddr.v6 a => Protocol.Ip6 a

/-- Model of `aptos_types::network_address::NetworkAddress`: an ordered
protocol sequence. -/
structure NetworkAddress where
  protocols : List Protocol
  deriving DecidableEq, Repr

/-- Conversion `NetworkAddress::from(Protocol)`: the singleton protocol sequence. -/
def NetworkAddress.fromProtocol (p : Protocol) : NetworkAddress := ⟨[p]⟩

/-- Modelled from the spec: `NetworkAddress::from_protocols` of the
address-encoding collaborator (repository code not under `src/`).
Construction fails if the sequence is structurally invalid; well-formed
sequences begin with exactly one IP component followed by exactly one
transport component. -/
def NetworkAddress.from_protocols (ps : List Protocol) : Option NetworkAddress :=
  match ps with
  | ip :: t :: _ => if ip.isIp && t.isTransport then some ⟨ps⟩ else none
  | _ => none

/-- Source function `get_available_port_in_multiaddr(is_ipv4: bool) -> NetworkAddress`:
select `Ip4("0.0.0.0".parse().unwrap())` or `Ip6("::1".parse().unwrap())`,
obtain a port from `get_available_port`, and build the two-component address
with `from_protocols(...).unwrap()`.  `none` models any panic. -/
def get_available_port_in_multiaddr (env : OsEnv) (is_ipv4 : Bool) :
    Option NetworkAddress :=
  match (if is_ipv4 then (parseIpv4 "0.0.0.0").map Protocol.Ip4
         else (parseIpv6 "::1").map Protocol.Ip6) with
  | none => none
  | some ip_proto =>
    match get_available_port env with
    | none => none
    | some port => NetworkAddress.from_protocols [ip_proto, Protocol.Tcp port]

/-- Model of one `get_if_addrs::Interface`: an IP and the loopback flag the
OS reports for it. -/
structure Interface where
  ip : IpAddr
  is_loopback : Bool
  deriving DecidableEq, Repr

/-- Source function `get_local_ip() -> Option<NetworkAddress>`: `get_if_addrs()` (here the
`Option (List Interface)` argument, `none` modelling an enumeration error),
then the first interface whose loopback flag is false, wrapped into a
single-protocol network address. -/
def get_local_ip (if_addrs_result : Option (List Interface)) :
    Option NetworkAddress :=
  if_addrs_result.bind fun if_addrs =>
    (if_addrs.find? fun a => !a.is_loopback).map fun a =>
      NetworkAddress.fromProtocol (Protocol.fromIp a.ip)

/-- The first interface in enumeration order whose loopback flag is false,
written directly from the specification's words for comparison with the
source's `find?`. -/
def firstNonLoopback : List Interface → Option Interface
  | [] => none
  | a :: rest => if a.is_loopback then firstNonLoopback rest else some a

/-- Model of `aptos_types::transaction::Transaction`: opaque payload. -/
structure Transaction where
  payload : Nat
  deriving DecidableEq, Repr

/-- The `execution` section of a node configuration. -/
structure ExecutionConfig where
  genesis : Option Transaction
  deriving DecidableEq, Repr

/-- Model of `NodeConfig` restricted to the field this file reads. -/
structure NodeConfig where
  execution : ExecutionConfig
  deriving DecidableEq, Repr

/-- Source function `get_genesis_txn(config: &NodeConfig) -> Option<&Transaction>`:
`config.execution.genesis.as_ref()`. -/
def get_genesis_txn (config : NodeConfig) : Option Transaction :=
  config.execution.genesis

-- Basic lemmas about the port allocator

theorem candidatePort_bounds (env : OsEnv) (i : Nat) :
    RANDOM_PORT_RANGE_START ≤ candidatePort env i ∧
      candidatePort env i < RANDOM_PORT_RANGE_END := by
  unfold candidatePort genRange RANDOM_PORT_RANGE_START RANDOM_PORT_RANGE_END
  have h := Nat.mod_lt (env.randVals i) (show 0 < 30000 - 10000 by norm_num)
  omega

theorem get_random_port_ok (env : OsEnv) (i p : Nat)
    (h : get_random_port env i = Except.ok p) :
    p = candidatePort env i ∧
      RANDOM_PORT_RANGE_START ≤ p ∧ p < RANDOM_PORT_RANGE_END := by
  have hc := candidatePort_bounds env i
  unfold get_random_port at h
  by_cases h1 : env.bindOk i (candidatePort env i) = true
  · rw [if_pos h1] at h
    by_cases h2 : env.localAddrOk i = true
    · rw [if_pos h2] at h
      by_cases h3 : env.connectOk i = true
      · rw [if_pos h3] at h
        by_cases h4 : env.acceptOk i = true
        · rw [if_pos h4] at h
          have hb : boundPort env i (candidatePort env i) = candidatePort env i := by
            unfold boundPort
            rw [if_neg]
            unfold RANDOM_PORT_RANGE_START at hc
            omega
          rw [hb] at h
          cases h
          exact ⟨rfl, hc.1, hc.2⟩
        · rw [if_neg h4] at h; cases h
      · rw [if_neg h3] at h; cases h
    · rw [if_neg h2] at h; cases h
  · rw [if_neg h1] at h; cases h

theorem get_available_port_aux_some (env : OsEnv) :
    ∀ fuel i p, get_available_port_aux env i fuel = some p →
      ∃ j, i ≤ j ∧ j < i + fuel ∧ get_random_port env j = Except.ok p := by
  intro fuel
  induction fuel with
  | zero => intro i p h; simp [get_available_port_aux] at h
  | succ n ih =>
    intro i p h
    unfold get_available_port_aux at h
    cases hg : get_random_port env i with
    | ok q =>
      rw [hg] at h
      simp at h
      exact ⟨i, Nat.le_refl i, by omega, by rw [hg, h]⟩
    | error e =>
      rw [hg] at h
      simp at h
      obtain ⟨j, hj1, hj2, hj3⟩ := ih (i + 1) p h
      exact ⟨j, by omega, by omega, hj3⟩

theorem get_available_port_aux_none (env : OsEnv) :
    ∀ fuel i,
      (∀ j, i ≤ j → j < i + fuel → get_random_port env j = Except.error ()) →
      get_available_port_aux env i fuel = none := by
  intro fuel
  induction fuel with
  | zero => intro i _; rfl
  | succ n ih =>
    intro i h
    unfold get_available_port_aux
    rw [h i (Nat.le_refl i) (by omega)]
    exact ih (i + 1) fun j hj1 hj2 => h j (by omega) (by omega)

theorem get_available_port_aux_first_ok (env : OsEnv) :
    ∀ k fuel i p, k < fuel →
      (∀ j, i ≤ j → j < i + k → get_random_port env j = Except.error ()) →
      get_random_port env (i + k) = Except.ok p →
      get_available_port_aux env i fuel = some p := by
  intro k
  induction k with
  | zero =>
    intro fuel i p hk _ hok
    match fuel, hk with
    | n + 1, _ =>
      unfold get_available_port_aux
      rw [show i + 0 = i from rfl] at hok
      rw [hok]
  | succ m ih =>
    intro fuel i p hk herr hok
    match fuel, hk with
    | n + 1, hk =>
      unfold get_available_port_aux
      rw [herr i (Nat.le_refl i) (by omega)]
      exact ih n (i + 1) p (by omega)
        (fun j hj1 hj2 => herr j (by omega) (by omega))
        (by rw [show i + 1 + m = i + (m + 1) by omega]; exact hok)

theorem attemptsUsed_aux_le (env : OsEnv) :
    ∀ fuel i, attemptsUsed_aux env i fuel ≤ fuel := by
  intro fuel
  induction fuel with
  | zero => intro i; exact Nat.le_refl 0
  | succ n ih =>
    intro i
    unfold attemptsUsed_aux
    cases hg : get_random_port env i with
    | ok q => simp
    | error e => simp; have := ih (i + 1); omega

-- Shared helper lemmas and concrete environments

theorem get_available_port_some_range (env : OsEnv) (p : Nat)
    (h : get_available_port env = some p) :
    RANDOM_PORT_RANGE_START ≤ p ∧ p < RANDOM_PORT_RANGE_END := by
  obtain ⟨j, _, _, hok⟩ :=
    get_available_port_aux_some env MAX_PORT_RETRIES 0 p h
  exact (get_random_port_ok env j p hok).2

theorem parseIpv4_anyAddr : parseIpv4 "0.0.0.0" = some ⟨0, 0, 0, 0⟩ := by decide

theorem parseIpv6_loopback :
    parseIpv6 "::1" = some ⟨[0, 0, 0, 0, 0, 0, 0, 1]⟩ := by decide

/-- Environment in which every OS call succeeds and every raw draw is 0, so
attempt 0 yields port 10000. -/
def envAllOk : OsEnv where
  randVals := fun _ => 0
  bindOk := fun _ _ => true
  localAddrOk := fun _ => true
  connectOk := fun _ => true
  acceptOk := fun _ => true
  ephemeralPort := fun _ => 0

/-- Environment in which every bind fails, exhausting the retry budget. -/
def envAllFail : OsEnv where
  randVals := fun _ => 0
  bindOk := fun _ _ => false
  localAddrOk := fun _ => true
  connectOk := fun _ => true
  acceptOk := fun _ => true
  ephemeralPort := fun _ => 0

/-- Environment in which the bind of attempt 0 fails and every later bind
succeeds. -/
def envFailThenOk : OsEnv where
  randVals := fun _ => 0
  bindOk := fun i _ => !(i == 0)
  localAddrOk := fun _ => true
  connectOk := fun _ => true
  acceptOk := fun _ => true
  ephemeralPort := fun _ => 0

-- Claim theorems

/-- C1: every successful call of `get_available_port` returns a port that is
a 16-bit value in the closed-open range [10000, 30000), hence never in the OS
ephemeral range. -/
theorem get_available_port_in_range (env : OsEnv) (p : Nat)
    (h : get_available_port env = some p) :
    RANDOM_PORT_RANGE_START ≤ p ∧ p < RANDOM_PORT_RANGE_END ∧
      p < 2 ^ 16 ∧ inOsEphemeralRange p = false := by
  obtain ⟨h1, h2⟩ := get_available_port_some_range env p h
  refine ⟨h1, h2, ?_, ?_⟩
  · unfold RANDOM_PORT_RANGE_END at h2; omega
  · unfold RANDOM_PORT_RANGE_END at h2
    unfold inOsEphemeralRange
    have : ¬ 32768 ≤ p := by omega
    simp [this]

/-- Witness for C1 at a concrete all-success environment. -/
theorem get_available_port_in_range_witness :
    RANDOM_PORT_RANGE_START ≤ 10000 ∧ 10000 < RANDOM_PORT_RANGE_END ∧
      10000 < 2 ^ 16 ∧ inOsEphemeralRange 10000 = false :=
  get_available_port_in_range envAllOk 10000 rfl

/-- C2: `get_available_port` makes at most `MAX_PORT_RETRIES` (1000)
allocation attempts, and if every attempt in the budget fails it panics
(`none`) rather than returning any value. -/
theorem get_available_port_retry_budget (env : OsEnv) :
    attemptsUsed env ≤ MAX_PORT_RETRIES ∧
      ((∀ i, i < MAX_PORT_RETRIES → get_random_port env i = Except.error ()) →
        get_available_port env = none) := by
  constructor
  · exact attemptsUsed_aux_le env MAX_PORT_RETRIES 0
  · intro h
    exact get_available_port_aux_none env MAX_PORT_RETRIES 0
      fun j _ hj2 => h j (by omega)

/-- Witness for C2 at a concrete environment where every bind fails. -/
theorem get_available_port_retry_budget_witness :
    attemptsUsed envAllFail ≤ MAX_PORT_RETRIES ∧
      get_available_port envAllFail = none :=
  ⟨(get_available_port_retry_budget envAllFail).1,
    (get_available_port_retry_budget envAllFail).2 fun _ _ => rfl⟩

/-- C3: on a successful port allocation, `get_available_port_in_multiaddr`
with `is_ipv4 = true` yields the literal IPv4 address 0.0.0.0 followed by a
TCP component carrying the allocated port, and with `is_ipv4 = false` the
literal IPv6 loopback address ::1 with the same port, the port lying in
[10000, 30000). -/
theorem get_available_port_in_multiaddr_literals (env : OsEnv) (p : Nat)
    (h : get_available_port env = some p) :
    get_available_port_in_multiaddr env true =
        some ⟨[Protocol.Ip4 ⟨0, 0, 0, 0⟩, Protocol.Tcp p]⟩ ∧
      get_available_port_in_multiaddr env false =
        some ⟨[Protocol.Ip6 ⟨[0, 0, 0, 0, 0, 0, 0, 1]⟩, Protocol.Tcp p]⟩ ∧
      RANDOM_PORT_RANGE_START ≤ p ∧ p < RANDOM_PORT_RANGE_END := by
  obtain ⟨h1, h2⟩ := get_available_port_some_range env p h
  refine ⟨?_, ?_, h1, h2⟩
  · simp [get_available_port_in_multiaddr, parseIpv4_anyAddr, h,
      NetworkAddress.from_protocols, Protocol.isIp, Protocol.isTransport]
  · simp [get_available_port_in_multiaddr, parseIpv6_loopback, h,
      NetworkAddress.from_protocols, Protocol.isIp, Protocol.isTransport]

/-- Witness for C3 at a concrete all-success environment. -/
theorem get_available_port_in_multiaddr_literals_witness :
    get_available_port_in_multiaddr envAllOk true =
        some ⟨[Protocol.Ip4 ⟨0, 0, 0, 0⟩, Protocol.Tcp 10000]⟩ ∧
      get_available_port_in_multiaddr envAllOk false =
        some ⟨[Protocol.Ip6 ⟨[0, 0, 0, 0, 0, 0, 0, 1]⟩, Protocol.Tcp 10000]⟩ ∧
      RANDOM_PORT_RANGE_START ≤ 10000 ∧ 10000 < RANDOM_PORT_RANGE_END :=
  get_available_port_in_multiaddr_literals envAllOk 10000 rfl

/-- C4: whenever the reported interface list has at least one interface whose
loopback flag is false, `get_local_ip` returns the address of the first such
interface in enumeration order. -/
theorem get_local_ip_first_non_loopback (ifs : List Interface)
    (h : ∃ a ∈ ifs, a.is_loopback = false) :
    ∃ a, firstNonLoopback ifs = some a ∧
      get_local_ip (some ifs) =
        some (NetworkAddress.fromProtocol (Protocol.fromIp a.ip)) := by
  induction ifs with
  | nil => simp at h
  | cons b rest ih =>
    by_cases hb : b.is_loopback = true
    · obtain ⟨a, ha, hl⟩ := h
      rcases List.mem_cons.mp ha with rfl | ha
      · rw [hb] at hl; cases hl
      · obtain ⟨a, h1, h2⟩ := ih ⟨a, ha, hl⟩
        refine ⟨a, ?_, ?_⟩
        · rw [firstNonLoopback, if_pos hb]; exact h1
        · simpa [get_local_ip, List.find?_cons, hb] using h2
    · have hb' : b.is_loopback = false := by simpa using hb
      refine ⟨b, ?_, ?_⟩
      · rw [firstNonLoopback, if_neg hb]
      · simp [get_local_ip, List.find?_cons, hb']

/-- Witness for C4 at a concrete two-interface list whose second interface is
the first non-loopback one. -/
theorem get_local_ip_first_non_loopback_witness :
    ∃ a, firstNonLoopback
        [⟨IpAddr.v4 ⟨127, 0, 0, 1⟩, true⟩, ⟨IpAddr.v4 ⟨10, 0, 0, 5⟩, false⟩] =
        some a ∧
      get_local_ip (some
        [⟨IpAddr.v4 ⟨127, 0, 0, 1⟩, true⟩, ⟨IpAddr.v4 ⟨10, 0, 0, 5⟩, false⟩]) =
        some (NetworkAddress.fromProtocol (Protocol.fromIp a.ip)) :=
  get_local_ip_first_non_loopback
    [⟨IpAddr.v4 ⟨127, 0, 0, 1⟩, true⟩, ⟨IpAddr.v4 ⟨10, 0, 0, 5⟩, false⟩]
    ⟨⟨IpAddr.v4 ⟨10, 0, 0, 5⟩, false⟩, by decide, rfl⟩

/-- C5: if interface enumeration fails, or the interface list is empty, or
every reported interface is loopback, `get_local_ip` returns `none` and never
surfaces an error. -/
theorem get_local_ip_empty (r : Option (List Interface))
    (h : r = none ∨ r = some [] ∨
      ∃ l, r = some l ∧ ∀ a ∈ l, a.is_loopback = true) :
    get_local_ip r = none := by
  rcases h with rfl | rfl | ⟨l, rfl, hl⟩
  · rfl
  · rfl
  · have hf : List.find? (fun a => !a.is_loopback) l = none :=
      List.find?_eq_none.mpr fun a ha => by simp [hl a ha]
    simp [get_local_ip, hf]

/-- Witness for C5 at the failing-enumeration input. -/
theorem get_local_ip_empty_witness : get_local_ip none = none :=
  get_local_ip_empty none (Or.inl rfl)

/-- C6: `get_genesis_txn` returns exactly the transaction stored under
`execution.genesis` when it is present and `none` when it is unset; the
configuration is taken by shared reference and never changed. -/
theorem get_genesis_txn_spec (config : NodeConfig) :
    (∀ t, config.execution.genesis = some t → get_genesis_txn config = some t) ∧
      (config.execution.genesis = none → get_genesis_txn config = none) := by
  constructor
  · intro t ht; rw [get_genesis_txn, ht]
  · intro hn; rw [get_genesis_txn, hn]

/-- Witness for C6 at a present and at an absent genesis transaction. -/
theorem get_genesis_txn_spec_witness :
    get_genesis_txn ⟨⟨some ⟨7⟩⟩⟩ = some ⟨7⟩ ∧ get_genesis_txn ⟨⟨none⟩⟩ = none :=
  ⟨(get_genesis_txn_spec ⟨⟨some ⟨7⟩⟩⟩).1 ⟨7⟩ rfl,
    (get_genesis_txn_spec ⟨⟨none⟩⟩).2 rfl⟩

/-- C7: a failed allocation attempt is recovered locally: when every attempt
before `i` fails and attempt `i` (which draws its own fresh random candidate)
succeeds with port `p`, `get_available_port` returns `p` and no failure is
surfaced to the caller. -/
theorem get_available_port_recovers (env : OsEnv) (i p : Nat)
    (hi : i < MAX_PORT_RETRIES)
    (herr : ∀ j, j < i → get_random_port env j = Except.error ())
    (hok : get_random_port env i = Except.ok p) :
    get_available_port env = some p := by
  unfold get_available_port
  exact get_available_port_aux_first_ok env i MAX_PORT_RETRIES 0 p hi
    (fun j _ hj2 => herr j (by omega))
    (by rw [Nat.zero_add]; exact hok)

/-- Witness for C7: attempt 0 fails to bind, attempt 1 succeeds and its port
is returned. -/
theorem get_available_port_recovers_witness :
    get_available_port envFailThenOk = some 10000 :=
  get_available_port_recovers envFailThenOk 1 10000 (by decide)
    (fun j hj => by
      match j, hj with
      | 0, _ => rfl)
    rfl

/-- C8: every address `get_available_port_in_multiaddr` constructs is a
protocol sequence of exactly one IP component followed by exactly one
transport component carrying the allocated port, and nothing else. -/
theorem get_available_port_in_multiaddr_well_formed (env : OsEnv) (b : Bool)
    (addr : NetworkAddress)
    (h : get_available_port_in_multiaddr env b = some addr) :
    ∃ ip port, addr.protocols = [ip, Protocol.Tcp port] ∧ ip.isIp = true ∧
      (Protocol.Tcp port).isTransport = true ∧
      get_available_port env = some port := by
  cases b with
  | true =>
    rw [get_available_port_in_multiaddr] at h
    rw [if_pos rfl, parseIpv4_anyAddr] at h
    simp only [Option.map_some'] at h
    cases hp : get_available_port env with
    | none => rw [hp] at h; cases h
    | some port =>
      rw [hp] at h
      simp [NetworkAddress.from_protocols, Protocol.isIp,
        Protocol.isTransport] at h
      exact ⟨Protocol.Ip4 ⟨0, 0, 0, 0⟩, port, by rw [← h], rfl, rfl, rfl⟩
  | false =>
    rw [get_available_port_in_multiaddr] at h
    rw [if_neg (by simp), parseIpv6_loopback] at h
    simp only [Option.map_some'] at h
    cases hp : get_available_port env with
    | none => rw [hp] at h; cases h
    | some port =>
      rw [hp] at h
      simp [NetworkAddress.from_protocols, Protocol.isIp,
        Protocol.isTransport] at h
      exact ⟨Protocol.Ip6 ⟨[0, 0, 0, 0, 0, 0, 0, 1]⟩, port, by rw [← h],
        rfl, rfl, rfl⟩

/-- Witness for C8 at a concrete all-success environment. -/
theorem get_available_port_in_multiaddr_well_formed_witness :
    ∃ ip port,
      (NetworkAddress.mk [Protocol.Ip4 ⟨0, 0, 0, 0⟩,
        Protocol.Tcp 10000]).protocols = [ip, Protocol.Tcp port] ∧
      ip.isIp = true ∧ (Protocol.Tcp port).isTransport = true ∧
      get_available_port envAllOk = some port :=
  get_available_port_in_multiaddr_well_formed envAllOk true
    ⟨[Protocol.Ip4 ⟨0, 0, 0, 0⟩, Protocol.Tcp 10000]⟩ rfl

/-- C9: for the fixed literal inputs the unwrap-style panic branches of
`get_available_port_in_multiaddr` are unreachable for every `is_ipv4`: the
parses of "0.0.0.0" and "::1" succeed, `from_protocols` on the two-component
sequence succeeds, and whenever the port allocation itself succeeds the whole
construction succeeds. -/
theorem get_available_port_in_multiaddr_unwraps_safe (env : OsEnv) (b : Bool)
    (p : Nat) (h : get_available_port env = some p) :
    (parseIpv4 "0.0.0.0").isSome = true ∧ (parseIpv6 "::1").isSome = true ∧
      (NetworkAddress.from_protocols
        [(if b then Protocol.Ip4 ⟨0, 0, 0, 0⟩
          else Protocol.Ip6 ⟨[0, 0, 0, 0, 0, 0, 0, 1]⟩),
         Protocol.Tcp p]).isSome = true ∧
      (get_available_port_in_multiaddr env b).isSome = true := by
  refine ⟨by rw [parseIpv4_anyAddr]; rfl, by rw [parseIpv6_loopback]; rfl,
    ?_, ?_⟩
  · cases b <;>
      simp [NetworkAddress.from_protocols, Protocol.isIp, Protocol.isTransport]
  · cases b with
    | true =>
      rw [get_available_port_in_multiaddr, if_pos rfl, parseIpv4_anyAddr]
      simp [h, NetworkAddress.from_protocols, Protocol.isIp,
        Protocol.isTransport]
    | false =>
      rw [get_available_port_in_multiaddr, if_neg (by simp), parseIpv6_loopback]
      simp [h, NetworkAddress.from_protocols, Protocol.isIp,
        Protocol.isTransport]

/-- Witness for C9 at a concrete all-success environment. -/
theorem get_available_port_in_multiaddr_unwraps_safe_witness :
    (parseIpv4 "0.0.0.0").isSome = true ∧ (parseIpv6 "::1").isSome = true ∧
      (NetworkAddress.from_protocols
        [(if true then Protocol.Ip4 ⟨0, 0, 0, 0⟩
          else Protocol.Ip6 ⟨[0, 0, 0, 0, 0, 0, 0, 1]⟩),
         Protocol.Tcp 10000]).isSome = true ∧
      (get_available_port_in_multiaddr envAllOk true).isSome = true :=
  get_available_port_in_multiaddr_unwraps_safe envAllOk true 10000 rfl

/-- C10: every port a successful `get_available_port` run returns is the port
read back from the listener's bound local address at some attempt within the
budget, and since the drawn candidate is nonzero it equals that drawn
candidate — never an OS-substituted ephemeral port. -/
theorem get_available_port_returns_requested (env : OsEnv) (p : Nat)
    (h : get_available_port env = some p) :
    ∃ i, i < MAX_PORT_RETRIES ∧ get_random_port env i = Except.ok p ∧
      p = boundPort env i (candidatePort env i) ∧
      candidatePort env i ≠ 0 ∧ p = candidatePort env i := by
  obtain ⟨j, _, hj2, hok⟩ :=
    get_available_port_aux_some env MAX_PORT_RETRIES 0 p h
  obtain ⟨hc, h1, _⟩ := get_random_port_ok env j p hok
  have hcb := candidatePort_bounds env j
  have hne : candidatePort env j ≠ 0 := by
    unfold RANDOM_PORT_RANGE_START at hcb; omega
  refine ⟨j, by omega, hok, ?_, hne, hc⟩
  rw [boundPort, if_neg hne]; exact hc

/-- Witness for C10 at a concrete all-success environment. -/
theorem get_available_port_returns_requested_witness :
    ∃ i, i < MAX_PORT_RETRIES ∧
      get_random_port envAllOk i = Except.ok 10000 ∧
      10000 = boundPort envAllOk i (candidatePort envAllOk i) ∧
      candidatePort envAllOk i ≠ 0 ∧ 10000 = candidatePort envAllOk i :=
  get_available_port_returns_requested envAllOk 10000 rfl

end ConfigUtils
